import Mathlib

/-!
Shallow embedding of the data-model layer of the attendance monitor
application (attendancecontrol/control/models.py): the user-manager
creation methods, the AccessToken save, validity and expiry logic, and
the Course URL helper for student registration.

Time is modelled as an integer number of seconds; the current time and
the output of the random token generator are passed to the embedded
functions as explicit parameters.  Persistence is modelled by the
in-memory record a save returns together with a saved flag on users.
-/

namespace AttendanceControl

/-- Python truthiness of an optional integer primary key: None and 0 are
falsy, every other integer is truthy. -/
def idTruthy : Option Nat → Bool
  | none => false
  | some n => n != 0

/-- The Python expression x or d for an optional integer x: a missing or
zero x falls through to d, any other value is taken as is. -/
def pyOrInt : Option Int → Int → Int
  | none, d => d
  | some n, d => if n = 0 then d else n

/-- Python str applied to an optional integer primary key; str of None is
the four-letter string None. -/
def pyStrId : Option Nat → String
  | none => "None"
  | some n => toString n

/-- The AccessToken model: an optional primary key, the token string, the
creation timestamp in seconds and the validity window in minutes (the
field default in the source is 90). -/
structure AccessToken where
  id : Option Nat
  token : String
  created : Int
  valid_time : Int
deriving DecidableEq

/-- AccessToken.save from the source: when the record has no truthy
primary key yet, stamp created with the current time and assign the
freshly generated token before delegating to the framework save.  The
current time and the fresh token produced by secrets.token_urlsafe are
parameters of the embedding. -/
def AccessToken.save (a : AccessToken) (now : Int) (freshToken : String) : AccessToken :=
  if idTruthy a.id then a
  else { a with created := now, token := freshToken }

/-- AccessToken.is_token_valid from the source: a plain string comparison
of the candidate against the stored token. -/
def AccessToken.is_token_valid (a : AccessToken) (given_token : String) : Bool :=
  if a.token == given_token then true else false

/-- AccessToken.is_token_expired from the source: the expiration time is
created plus (custom_valid_time or valid_time) times 60 seconds, a Python
or, so a missing or zero override falls back to valid_time; the result is
false while now is strictly before the expiration time and true from that
instant on. -/
def AccessToken.is_token_expired (a : AccessToken) (now : Int)
    (custom_valid_time : Option Int) : Bool :=
  let expiration_time := a.created + (pyOrInt custom_valid_time a.valid_time) * 60
  if now < expiration_time then false else true

/-- The expiry check as claim C1 words it: the validity window is
custom_valid_time minutes whenever that argument is supplied and
valid_time minutes otherwise, and the check returns false exactly while
now is strictly before created plus the window. -/
def is_token_expired_claimC1 (a : AccessToken) (now : Int)
    (custom_valid_time : Option Int) : Bool :=
  let window := custom_valid_time.getD a.valid_time
  if now < a.created + window * 60 then false else true

/-- The optional boolean keyword arguments the manager methods read from
extra_fields. -/
structure ExtraFields where
  is_staff : Option Bool
  is_superuser : Option Bool
  is_active : Option Bool
deriving DecidableEq

/-- The user record fields the manager methods touch.  The password field
holds the value handed to set_password (hashing is framework code); the
saved flag records that user.save() ran.  Field defaults follow the model:
is_student and is_teacher default to false, is_staff and is_superuser
default to false and is_active to true in the framework base user. -/
structure User where
  email : String
  password : String
  is_staff : Bool
  is_superuser : Bool
  is_active : Bool
  is_student : Bool
  is_teacher : Bool
  saved : Bool
deriving DecidableEq

/-- Split a character list at the last occurrence of c: the part before
that occurrence and the part after it, or none when c does not occur. -/
def rsplitLast (cs : List Char) (c : Char) : Option (List Char × List Char) :=
  match cs.reverse.span (fun x => x ≠ c) with
  | (_, []) => none
  | (revAfter, _ :: revBefore) => some (revBefore.reverse, revAfter.reverse)

/-- BaseUserManager.normalize_email of the host framework, which
create_user delegates to: strip surrounding whitespace, split at the last
at sign and lowercase the domain part; a string without an at sign is
returned unchanged. -/
def normalize_email (email : String) : String :=
  match rsplitLast email.trim.toList '@' with
  | none => email
  | some (emailName, domainPart) =>
      String.mk (emailName ++ '@' :: domainPart.map Char.toLower)

/-- CustomUserManager.create_user from the source: reject a falsy (empty)
email with a ValueError, otherwise normalize the email, build the user
from the extra fields over the model defaults, set the password, save the
record and return the user. -/
def create_user (email password : String) (extra_fields : ExtraFields) :
    Except String User :=
  if email = "" then
    Except.error "The Email must be set"
  else
    let emailN := normalize_email email
    let user : User :=
      { email := emailN
        password := ""
        is_staff := extra_fields.is_staff.getD false
        is_superuser := extra_fields.is_superuser.getD false
        is_active := extra_fields.is_active.getD true
        is_student := false
        is_teacher := false
        saved := false }
    let user1 := { user with password := password }
    let user2 := { user1 with saved := true }
    Except.ok user2

/-- dict.setdefault on an optional boolean field: fill in the default
only when no value is present. -/
def setdefault (v : Option Bool) (d : Bool) : Option Bool :=
  match v with
  | none => some d
  | some b => some b

/-- CustomUserManager.create_superuser from the source: default is_staff,
is_superuser and is_active to True, reject an explicitly non-True
is_staff or is_superuser with a ValueError, then delegate to
create_user. -/
def create_superuser (email password : String) (extra_fields : ExtraFields) :
    Except String User :=
  let ef :=
    { extra_fields with
        is_staff := setdefault extra_fields.is_staff true
        is_superuser := setdefault extra_fields.is_superuser true
        is_active := setdefault extra_fields.is_active true }
  if ef.is_staff ≠ some true then
    Except.error "Superuser must have is_staff=True."
  else if ef.is_superuser ≠ some true then
    Except.error "Superuser must have is_superuser=True."
  else
    create_user email password ef

/-- Modelled from the spec: django.urls.reverse and the route tables of
the application are outside the excerpt; the spec only says the helpers
compose a route name with the given arguments, so a reversed URL is
modelled as the route name followed by the argument list. -/
def reverse (route : String) (args : List String) : String :=
  route ++ "/" ++ String.intercalate "/" args

/-- The Course fields the student register URL helper reads: the primary
key and the optional one-to-one access token. -/
structure Course where
  id : Option Nat
  name : String
  access_token : Option AccessToken
deriving DecidableEq

/-- Course.get_absolute_student_register_url from the source: reverse the
student:register_course route on the stringified course id and the token
of the access token, the empty string when the course has none (a present
model instance is always truthy in Python, a missing one is None). -/
def Course.get_absolute_student_register_url (c : Course) : String :=
  let token :=
    match c.access_token with
    | some t => t.token
    | none => ""
  reverse "student:register_course" [pyStrId c.id, token]

/-! Theorems settling the claims. -/

/-- C1: the claim takes every supplied custom_valid_time as the window, but
the code combines the override with the default through Python or, so a
supplied zero falls back to the stored 90 minute window: 30 minutes after
creation the code reports not expired while the claim reports expired. -/
theorem c1_counterexample :
    AccessToken.is_token_expired
      { id := some 1, token := "t", created := 0, valid_time := 90 } 1800 (some 0) = false
    ∧ is_token_expired_claimC1
      { id := some 1, token := "t", created := 0, valid_time := 90 } 1800 (some 0) = true := by
  constructor <;> decide

/-- C1, amended: for every AccessToken, is_token_expired returns false
exactly while now is strictly before created plus the validity window in
minutes and true from that instant on; the window is valid_time by
default, and a supplied custom_valid_time is interpreted as minutes and
used instead of valid_time whenever it is nonzero. -/
theorem c1_is_token_expired_spec (a : AccessToken) (now : Int)
    (custom : Option Int) (h : custom ≠ some 0) :
    a.is_token_expired now custom = is_token_expired_claimC1 a now custom
    ∧ (a.is_token_expired now custom = false
        ↔ now < a.created + (custom.getD a.valid_time) * 60) := by
  have hw : pyOrInt custom a.valid_time = custom.getD a.valid_time := by
    cases custom with
    | none => rfl
    | some n =>
        have hn : n ≠ 0 := fun hn0 => h (by rw [hn0])
        simp [pyOrInt, hn]
  constructor
  · simp [AccessToken.is_token_expired, is_token_expired_claimC1, hw]
  · simp [AccessToken.is_token_expired, hw]

/-- C1 witness: the amended expiry characterisation applied at a concrete
token, time and nonzero override. -/
theorem c1_is_token_expired_spec_witness :
    (some (5 : Int) ≠ some 0)
    ∧ (AccessToken.is_token_expired
          { id := some 1, token := "t", created := 0, valid_time := 90 } 400 (some 5)
        = is_token_expired_claimC1
          { id := some 1, token := "t", created := 0, valid_time := 90 } 400 (some 5)
      ∧ (AccessToken.is_token_expired
            { id := some 1, token := "t", created := 0, valid_time := 90 } 400 (some 5) = false
          ↔ (400 : Int) < 0 + (some (5 : Int)).getD 90 * 60)) :=
  ⟨by decide,
   c1_is_token_expired_spec
     { id := some 1, token := "t", created := 0, valid_time := 90 } 400 (some 5) (by decide)⟩

/-- C2: saving an AccessToken that already has a (truthy, hence positive)
primary key leaves its token string and its created timestamp unchanged. -/
theorem c2_save_preserves_existing (a : AccessToken) (now : Int)
    (fresh : String) (h : idTruthy a.id = true) :
    (a.save now fresh).token = a.token ∧ (a.save now fresh).created = a.created := by
  simp [AccessToken.save, h]

/-- C2 witness: a second save of a persisted token record at a concrete
input keeps the stored token and timestamp. -/
theorem c2_save_preserves_existing_witness :
    (idTruthy (some 3) = true)
    ∧ ((AccessToken.save
          { id := some 3, token := "abc", created := 7, valid_time := 90 } 99 "zzz").token = "abc"
      ∧ (AccessToken.save
          { id := some 3, token := "abc", created := 7, valid_time := 90 } 99 "zzz").created = 7) :=
  ⟨by decide,
   c2_save_preserves_existing
     { id := some 3, token := "abc", created := 7, valid_time := 90 } 99 "zzz" (by decide)⟩

/-- C3: the claim says every save regenerates the token, but a save of a
record that already has a primary key leaves the stored token in place
even though a fresh token string is available. -/
theorem c3_counterexample :
    (AccessToken.save
        { id := some 1, token := "old", created := 0, valid_time := 90 } 50 "new").token = "old"
    ∧ "old" ≠ "new" := by
  constructor <;> decide

/-- C3, amended: the token is regenerated, and the creation time stamped,
only on a save of a record without a truthy primary key; every save of a
record that already has one leaves both fields as they are. -/
theorem c3_save_token_regeneration (a : AccessToken) (now : Int) (fresh : String) :
    (idTruthy a.id = false →
        (a.save now fresh).token = fresh ∧ (a.save now fresh).created = now)
    ∧ (idTruthy a.id = true →
        (a.save now fresh).token = a.token ∧ (a.save now fresh).created = a.created) := by
  constructor <;> intro h <;> simp [AccessToken.save, h]

/-- C3 witness: the amended regeneration behaviour at a concrete unsaved
record. -/
theorem c3_save_token_regeneration_witness :
    (idTruthy none = false)
    ∧ ((AccessToken.save
          { id := none, token := "", created := 0, valid_time := 90 } 11 "fr").token = "fr"
      ∧ (AccessToken.save
          { id := none, token := "", created := 0, valid_time := 90 } 11 "fr").created = 11) :=
  ⟨by decide,
   (c3_save_token_regeneration
      { id := none, token := "", created := 0, valid_time := 90 } 11 "fr").1 (by decide)⟩

/-- C4: every save of an AccessToken without a primary key assigns the
freshly generated token string and the current timestamp to the token and
created fields of the record that is persisted. -/
theorem c4_first_save_assigns (a : AccessToken) (now : Int) (fresh : String)
    (h : a.id = none) :
    (a.save now fresh).token = fresh ∧ (a.save now fresh).created = now := by
  simp [AccessToken.save, idTruthy, h]

/-- C4 witness: a first save at a concrete input stamps the supplied time
and fresh token. -/
theorem c4_first_save_assigns_witness :
    (AccessToken.id { id := none, token := "x", created := 5, valid_time := 30 } = none)
    ∧ ((AccessToken.save
          { id := none, token := "x", created := 5, valid_time := 30 } 77 "tok9").token = "tok9"
      ∧ (AccessToken.save
          { id := none, token := "x", created := 5, valid_time := 30 } 77 "tok9").created = 77) :=
  ⟨rfl,
   c4_first_save_assigns
     { id := none, token := "x", created := 5, valid_time := 30 } 77 "tok9" rfl⟩

/-- C5: is_token_valid returns true exactly when the candidate string
equals the stored token; any differing string yields false (the embedded
function is total and pure, so no side effect or exception occurs). -/
theorem c5_is_token_valid_iff (a : AccessToken) (given : String) :
    a.is_token_valid given = true ↔ a.token = given := by
  simp [AccessToken.is_token_valid]

/-- C6: create_user fails with a validation error exactly when the email
is empty; for every nonempty email it stores the normalized email on the
new user, sets the password, saves the record and returns the user. -/
theorem c6_create_user (email password : String) (extra : ExtraFields) :
    (email = "" → create_user email password extra = Except.error "The Email must be set")
    ∧ (email ≠ "" → ∃ u : User,
        create_user email password extra = Except.ok u
        ∧ u.email = normalize_email email
        ∧ u.password = password
        ∧ u.saved = true) := by
  constructor
  · intro h
    simp [create_user, h]
  · intro h
    exact ⟨{ email := normalize_email email
             password := password
             is_staff := extra.is_staff.getD false
             is_superuser := extra.is_superuser.getD false
             is_active := extra.is_active.getD true
             is_student := false
             is_teacher := false
             saved := true },
           by simp [create_user, h], rfl, rfl, rfl⟩

/-- C6 witness: the empty email is rejected and a concrete nonempty email
produces a saved user carrying the normalized email and the password. -/
theorem c6_create_user_witness :
    (create_user "" "pw" ⟨none, none, none⟩ = Except.error "The Email must be set")
    ∧ (("A@B.com" : String) ≠ "")
    ∧ (∃ u : User,
        create_user "A@B.com" "pw" ⟨none, none, none⟩ = Except.ok u
        ∧ u.email = normalize_email "A@B.com"
        ∧ u.password = "pw"
        ∧ u.saved = true) :=
  ⟨(c6_create_user "" "pw" ⟨none, none, none⟩).1 rfl,
   by decide,
   (c6_create_user "A@B.com" "pw" ⟨none, none, none⟩).2 (by decide)⟩

/-- C7: create_superuser on a nonempty email with no overriding flags
returns a user with is_staff and is_superuser both true, and explicitly
requesting is_staff false makes it fail validation instead of creating a
user. -/
theorem c7_create_superuser (email password : String) (extra : ExtraFields)
    (h : email ≠ "") :
    (∃ u : User, create_superuser email password ⟨none, none, none⟩ = Except.ok u
        ∧ u.is_staff = true ∧ u.is_superuser = true)
    ∧ (extra.is_staff = some false →
        create_superuser email password extra
          = Except.error "Superuser must have is_staff=True.") := by
  constructor
  · exact ⟨{ email := normalize_email email
             password := password
             is_staff := true
             is_superuser := true
             is_active := true
             is_student := false
             is_teacher := false
             saved := true },
           by simp [create_superuser, setdefault, create_user, h], rfl, rfl⟩
  · intro hx
    simp [create_superuser, setdefault, hx]

/-- C7 witness: a concrete superuser creation yields both flags true, and
the same call with is_staff explicitly false is rejected. -/
theorem c7_create_superuser_witness :
    (("root@x.de" : String) ≠ "")
    ∧ (∃ u : User,
        create_superuser "root@x.de" "pw" ⟨none, none, none⟩ = Except.ok u
        ∧ u.is_staff = true ∧ u.is_superuser = true)
    ∧ (create_superuser "root@x.de" "pw" ⟨some false, none, none⟩
        = Except.error "Superuser must have is_staff=True.") :=
  ⟨by decide,
   (c7_create_superuser "root@x.de" "pw" ⟨some false, none, none⟩ (by decide)).1,
   (c7_create_superuser "root@x.de" "pw" ⟨some false, none, none⟩ (by decide)).2 rfl⟩

/-- C8: the student register URL is composed from the
student:register_course route, the stringified course id and the token of
the current access token, the empty string when the course has none. -/
theorem c8_register_url (c : Course) :
    (∀ t : AccessToken, c.access_token = some t →
        c.get_absolute_student_register_url
          = reverse "student:register_course" [pyStrId c.id, t.token])
    ∧ (c.access_token = none →
        c.get_absolute_student_register_url
          = reverse "student:register_course" [pyStrId c.id, ""]) := by
  constructor
  · intro t ht
    simp [Course.get_absolute_student_register_url, ht]
  · intro h
    simp [Course.get_absolute_student_register_url, h]

/-- C8 witness: a concrete course with a token uses that token in the
route arguments. -/
theorem c8_register_url_witness :
    (Course.access_token
        { id := some 2, name := "algo",
          access_token := some { id := some 1, token := "tok", created := 0, valid_time := 90 } }
      = some { id := some 1, token := "tok", created := 0, valid_time := 90 })
    ∧ Course.get_absolute_student_register_url
        { id := some 2, name := "algo",
          access_token := some { id := some 1, token := "tok", created := 0, valid_time := 90 } }
      = reverse "student:register_course" [pyStrId (some 2), "tok"] :=
  ⟨rfl,
   (c8_register_url
      { id := some 2, name := "algo",
        access_token := some { id := some 1, token := "tok", created := 0, valid_time := 90 } }).1
     { id := some 1, token := "tok", created := 0, valid_time := 90 } rfl⟩

/-- C9: a zero custom_valid_time does not give a zero-length window: the
Python or falls back to the stored valid_time, so the expiry check with a
zero override agrees with the check under the default window. -/
theorem c9_zero_override (a : AccessToken) (now : Int) :
    a.is_token_expired now (some 0) = a.is_token_expired now none := by
  simp [AccessToken.is_token_expired, pyOrInt]

/-- C10: explicitly requesting is_superuser false makes create_superuser
fail validation before any user record is built, so no user is created or
saved in that case. -/
theorem c10_superuser_false (email password : String) (extra : ExtraFields)
    (h : extra.is_superuser = some false) :
    ∃ msg, create_superuser email password extra = Except.error msg := by
  cases hs : extra.is_staff with
  | none =>
      exact ⟨"Superuser must have is_superuser=True.",
        by simp [create_superuser, setdefault, hs, h]⟩
  | some b =>
      cases b with
      | false =>
          exact ⟨"Superuser must have is_staff=True.",
            by simp [create_superuser, setdefault, hs, h]⟩
      | true =>
          exact ⟨"Superuser must have is_superuser=True.",
            by simp [create_superuser, setdefault, hs, h]⟩

/-- C10 witness: a concrete call with is_superuser explicitly false is
rejected with a validation error. -/
theorem c10_superuser_false_witness :
    (ExtraFields.is_superuser ⟨none, some false, none⟩ = some false)
    ∧ ∃ msg, create_superuser "a@b.c" "pw" ⟨none, some false, none⟩ = Except.error msg :=
  ⟨rfl, c10_superuser_false "a@b.c" "pw" ⟨none, some false, none⟩ rfl⟩

end AttendanceControl
